import Mathlib

/-!
Shallow embedding of the process-monitor core (`monitor.cpp`): the spawner
(zygote) registry, the per-pid attachment bitmap, the discovery engine, the
main ptrace wait loop, the child inspector and the termination handler.

Proc-filesystem reads, ptrace calls and signals are modelled through explicit
environments; the side effects a function performs (signals sent, ptrace
calls, timer operations) are collected in an event trace so that temporal
claims can be stated over it.
-/

namespace ProcMonitor

/-! ## Basic string helpers (strncmp / strstr over char lists) -/

/-- leadsWith needle hay: the first chars of hay spell out needle
(C `strncmp(hay, needle, |needle|) == 0`). -/
def leadsWith : List Char → List Char → Bool
  | [], _ => true
  | _ :: _, [] => false
  | a :: as, b :: bs => a == b && leadsWith as bs

/-- containsSub needle hay: needle occurs as a contiguous run in hay (C `strstr`). -/
def containsSub (needle : List Char) : List Char → Bool
  | [] => leadsWith needle []
  | c :: t => leadsWith needle (c :: t) || containsSub needle t

/-! ## Data model -/

/-- The slice of `struct stat` the monitor uses: device and inode identify a
mount namespace, the owner uid of `/proc/<pid>` gives the process uid. -/
structure Stat where
  st_dev : Nat
  st_ino : Nat
  st_uid : Nat
deriving DecidableEq

/-- Ptrace options set via `PTRACE_SETOPTIONS`. -/
inductive TraceOpt where
  | tracefork
  | tracevfork
  | traceexit
  | traceclone
  | traceexec
deriving DecidableEq

/-- Options set on a spawner: `PTRACE_O_TRACEFORK | PTRACE_O_TRACEVFORK | PTRACE_O_TRACEEXIT`. -/
def optsZygote : List TraceOpt := [TraceOpt.tracefork, TraceOpt.tracevfork, TraceOpt.traceexit]

/-- Options set on a confirmed app process: `PTRACE_O_TRACECLONE | PTRACE_O_TRACEEXEC | PTRACE_O_TRACEEXIT`. -/
def optsApp : List TraceOpt := [TraceOpt.traceclone, TraceOpt.traceexec, TraceOpt.traceexit]

/-- Observable side effects of the monitor, in program order. -/
inductive Event where
  | sigstop
  | sigcont
  | hide
  | query (uid : Nat) (cmdline : String)
  | readFail
  | detach (pid : Nat)
  | attach (pid : Nat)
  | waitStop (pid : Nat)
  | setopts (pid : Nat) (opts : List TraceOpt)
  | cont (pid : Nat)
  | contSig (pid : Nat) (sig : Nat)
  | spawnWorker
  | updateUidMap
  | armTimer
  | disarmTimer
  | closeFd (fd : Int)
deriving DecidableEq

/-- Occurrence count of one event in a trace. -/
def countEv (e : Event) : List Event → Nat
  | [] => 0
  | x :: t => (if x = e then 1 else 0) + countEv e t

/-! ## The attachment bitmap (`pid_set`) index arithmetic -/

def PID_MAX : Nat := 32768

/-- Width of `size_t` on the 64-bit targets the monitor is built for. -/
def size_t_mod : Nat := 2 ^ 64

/-- Operator `pid_set::operator[]` computes `pos - 1` in `size_t` arithmetic before
indexing the underlying `bitset<PID_MAX>`. -/
def pid_set_index (pos : Nat) : Nat := (pos + (size_t_mod - 1)) % size_t_mod

/-! ## Signal handlers and monitor state -/

inductive Handler where
  | dfl
  | ign
  | termThread
  | inotifyHandler
  | alarmHandler
deriving DecidableEq

/-- The mutable monitor state: the spawner registry `zygote_map`
(pid to mount-namespace fingerprint), the attachment bitmap `attaches`
(abstracted as the list of set pids), the pending-fork slot `fork_pid`,
the rescan timer, the inotify descriptor, the three installed signal
dispositions and the blocked-all mask flag. -/
structure MState where
  zygote_map : List (Nat × Stat)
  attaches : List Nat
  fork_pid : Nat
  timerArmed : Bool
  inotify_fd : Int
  actTermthrd : Handler
  actIoSig : Handler
  actAlarm : Handler
  maskAll : Bool
deriving DecidableEq

/-- State right after `proc_monitor` installed its handlers and inotify. -/
def initState : MState :=
  { zygote_map := []
    attaches := []
    fork_pid := 0
    timerArmed := false
    inotify_fd := 3
    actTermthrd := Handler.termThread
    actIoSig := Handler.inotifyHandler
    actAlarm := Handler.alarmHandler
    maskAll := false }

/-- Function `detach_pid`: clear the bitmap bit, then `PTRACE_DETACH`. -/
def detach_pid (s : MState) (pid : Nat) : MState × List Event :=
  ({ s with attaches := s.attaches.filter (fun q => q != pid) }, [Event.detach pid])

/-! ## Child inspector (`check_pid` / `do_check_fork`) -/

/-- Iteration cap of all three inspector polling loops. -/
def CAP : Nat := 300000

def preInitStr : String := "<pre-initialized>"
def zygoteCtx : String := "u:r:zygote:s0"
def appZygoteCtx : String := "u:r:app_zygote:s0"

def isZygoteCmd (c : String) : Bool :=
  c == "zygote" || c == "zygote32" || c == "zygote64"

def isExcludedCmd (c : String) : Bool :=
  c == "zygote" || c == "zygote32" || c == "zygote64" || c == "usap32" || c == "usap64"

/-- Environment of one `check_pid` call: what the proc filesystem answers.
`cmdlineAt k` is the k-th re-read of `/proc/<pid>/cmdline` after the initial
one (`none` models a read failure / dead process); `hideTarget` is the
external predicate `is_hide_target(uid, cmdline, 95)`. -/
structure ProcEnv where
  procStat : Option Stat
  attrCurrent : Option String
  cmdline0 : Option String
  cmdlineAt : Nat → Option String
  ns : Option Stat
  hideTarget : Nat → String → Bool

/-- Outcome of the first polling loop (wait until cmdline becomes
"\<pre-initialized\>"): either an early `return true` with the events it
emitted, or the loop exits with the current cmdline and read counter. -/
inductive Wait1Out where
  | bail (evs : List Event)
  | reached (cmd : String) (k : Nat)
deriving Inhabited

/-- Loop at `check_pid` lines 220-230: re-read cmdline until it equals
"\<pre-initialized\>"; give up (return true) after `CAP` re-reads; a failed
re-read is a dead process (return true). -/
def waitForPreInit (env : ProcEnv) : String → Nat → Nat → Wait1Out
  | cmd, k, 0 =>
    if cmd == preInitStr then Wait1Out.reached cmd k else Wait1Out.bail []
  | cmd, k, fuel + 1 =>
    if cmd == preInitStr then Wait1Out.reached cmd k
    else
      match env.cmdlineAt k with
      | none => Wait1Out.bail [Event.readFail]
      | some c => waitForPreInit env c (k + 1) fuel

/-- Outcome of the second polling loop (wait while cmdline still reads
"\<pre-initialized\>"). -/
inductive Wait2Out where
  | timeout (k : Nat)
  | died
  | exited (cmd : String) (k : Nat)
deriving Inhabited

/-- Loop at `check_pid` lines 245-254: re-read cmdline while it equals
"\<pre-initialized\>"; after `CAP` re-reads goto `not_target`; a failed
re-read is a dead process (return true). -/
def waitWhilePreInit (env : ProcEnv) : String → Nat → Nat → Wait2Out
  | cmd, k, 0 =>
    if cmd == preInitStr then Wait2Out.timeout k else Wait2Out.exited cmd k
  | cmd, k, fuel + 1 =>
    if cmd == preInitStr then
      match env.cmdlineAt k with
      | none => Wait2Out.died
      | some c => waitWhilePreInit env c (k + 1) fuel
    else Wait2Out.exited cmd k

/-- Value of the local `struct stat st` after `read_ns(pid, &st)` at line
272: overwritten on success, left holding the earlier `/proc/<pid>` stat on
failure (the return value is ignored there). -/
def nsOf (env : ProcEnv) (st : Stat) : Stat :=
  match env.ns with
  | none => st
  | some s2 => s2

/-- Rest of `check_pid` from the `check_and_hide` label on (lines 233-294):
uid-0 and spawner/usap exclusions, the second polling loop, the final
cmdline re-read, SIGSTOP, the `is_hide_target` query, the namespace
separation check against the registry, and `hide_daemon` / `not_target`. -/
def checkAndHide (zm : List (Nat × Stat)) (env : ProcEnv) (uid : Nat)
    (cmdline : String) (k : Nat) (st : Stat) : Bool × List Event :=
  if uid == 0 then (false, [])
  else if isExcludedCmd cmdline then (false, [])
  else
    match waitWhilePreInit env cmdline k CAP with
    | Wait2Out.died => (true, [Event.readFail])
    | Wait2Out.timeout _ => (true, [Event.sigcont])
    | Wait2Out.exited _ k2 =>
      match env.cmdlineAt k2 with
      | none => (true, [Event.readFail])
      | some cmd2 =>
        if env.hideTarget uid cmd2 = false then
          (true, [Event.sigstop, Event.query uid cmd2, Event.sigcont])
        else
          if zm.any (fun z => z.2.st_ino == (nsOf env st).st_ino &&
              z.2.st_dev == (nsOf env st).st_dev) then
            (true, [Event.sigstop, Event.query uid cmd2, Event.sigcont])
          else
            (true, [Event.sigstop, Event.query uid cmd2, Event.hide])

/-- Function `check_pid(pid)`: returns `true` when the inspection of this child is
finished (dead process, timeout, resumed, or handed to the hide daemon) and
`false` when the caller should retry, together with the trace of signals,
queries and failures. -/
def check_pid (zm : List (Nat × Stat)) (env : ProcEnv) : Bool × List Event :=
  match env.procStat with
  | none => (true, [Event.readFail])
  | some st =>
    match env.attrCurrent with
    | none => (true, [Event.readFail])
    | some context =>
      match env.cmdline0 with
      | none => (true, [Event.readFail])
      | some cmdline =>
        if isZygoteCmd cmdline && context != zygoteCtx then
          if containsSub appZygoteCtx.toList context.toList then
            checkAndHide zm env st.st_uid cmdline 0 st
          else
            match waitForPreInit env cmdline 0 CAP with
            | Wait1Out.bail evs => (true, evs)
            | Wait1Out.reached cmd k => checkAndHide zm env st.st_uid cmd k st
        else
          checkAndHide zm env st.st_uid cmdline 0 st

/-- Per-call environments of one `do_check_fork` run: the k-th retry of
`check_pid` observes `envs k`. -/
structure ForkEnv where
  envs : Nat → ProcEnv

/-- The retry loop of `do_check_fork` (lines 344-350): call `check_pid` until
it reports done or the iteration cap is hit; `fuel` is the number of retries
still allowed. -/
def checkLoop (zm : List (Nat × Stat)) (fe : ForkEnv) : Nat → Nat → List Event
  | k, 0 => (check_pid zm (fe.envs k)).2
  | k, fuel + 1 =>
    let p := check_pid zm (fe.envs k)
    if p.1 then p.2 else p.2 ++ checkLoop zm fe (k + 1) fuel

/-- Function `do_check_fork`: consume the pending-fork slot; pid 0 (no pending fork)
returns before any bitmap access; otherwise detach the child and run the
`check_pid` retry loop. -/
def do_check_fork (s : MState) (fe : ForkEnv) : MState × List Event :=
  let pid := s.fork_pid
  let s1 := { s with fork_pid := 0 }
  if pid == 0 then (s1, [])
  else
    let r := detach_pid s1 pid
    (r.1, r.2 ++ checkLoop r.1.zygote_map fe 0 CAP)

/-! ## `is_process` -/

def findTgid : List (String × Int) → Option Int
  | [] => none
  | (key, v) :: t => if key == "Tgid:" then some v else findTgid t

/-- Function `is_process(pid)`: scan `/proc/<pid>/status` (given as parsed key/value
lines, `none` when the file cannot be opened: the pid is dead) for the first
`Tgid:` line and compare it against the pid. -/
def is_process (pid : Nat) (statusRead : Option (List (String × Int))) : Bool :=
  match statusRead with
  | none => false
  | some lines =>
    match findTgid lines with
    | none => false
    | some tgid => tgid == (pid : Int)

/-! ## Discovery engine (`new_zygote` / `check_zygote`) -/

/-- Expected number of spawners: two on 64-bit (`__LP64__`) builds, one otherwise. -/
def expected_zygotes (lp64 : Bool) : Nat := if lp64 then 2 else 1

def is_zygote_done (lp64 : Bool) (s : MState) : Bool :=
  decide (expected_zygotes lp64 ≤ s.zygote_map.length)

/-- In-place overwrite of the fingerprint held by an existing registry entry. -/
def upsertNs (m : List (Nat × Stat)) (pid : Nat) (st : Stat) : List (Nat × Stat) :=
  m.map (fun e => if e.1 == pid then (pid, st) else e)

/-- Function `new_zygote(pid)`: read the mount-namespace fingerprint (given as
`nsRead`, `none` on failure); bail out silently on failure; refresh the
fingerprint of an already-known pid; otherwise insert, `PTRACE_ATTACH`,
blocking `waitpid`, `PTRACE_SETOPTIONS` fork/vfork/exit, `PTRACE_CONT`. -/
def new_zygote (s : MState) (pid : Nat) (nsRead : Option Stat) : MState × List Event :=
  match nsRead with
  | none => (s, [])
  | some st =>
    if (s.zygote_map.lookup pid).isSome then
      ({ s with zygote_map := upsertNs s.zygote_map pid st }, [])
    else
      ({ s with zygote_map := s.zygote_map ++ [(pid, st)] },
       [Event.attach pid, Event.waitStop pid, Event.setopts pid optsZygote, Event.cont pid])

/-- One process seen by `crawl_procfs` during a scan: its pid, what reading
its cmdline yields, the ppid `parse_ppid` reports, and what reading its
mount-namespace handle yields. -/
structure CrawlEntry where
  pid : Nat
  cmdlineRead : Option String
  ppid : Int
  nsRead : Option Stat
deriving DecidableEq

/-- Fold step of the procfs crawl in `check_zygote`: adopt every process whose
cmdline starts with "zygote" and whose parent is init (pid 1). -/
def czStep (acc : MState × List Event) (e : CrawlEntry) : MState × List Event :=
  match e.cmdlineRead with
  | none => acc
  | some cmd =>
    if leadsWith "zygote".toList cmd.toList && e.ppid == 1 then
      let r := new_zygote acc.1 e.pid e.nsRead
      (r.1, acc.2 ++ r.2)
    else acc

/-- Function `check_zygote()`: crawl procfs adopting spawners, then stop the periodic
rescan timer (`setitimer` with zero interval) once enough spawners are known. -/
def check_zygote (lp64 : Bool) (s : MState) (crawl : List CrawlEntry) : MState × List Event :=
  let r := crawl.foldl czStep (s, [])
  if is_zygote_done lp64 r.1 then
    ({ r.1 with timerArmed := false }, r.2 ++ [Event.disarmTimer])
  else r

/-- Startup portion of `proc_monitor` (lines 389-395): initial scan, then arm
the 250 ms periodic timer when too few spawners were found. -/
def monitor_init (lp64 : Bool) (crawl : List CrawlEntry) : MState × List Event :=
  let r := check_zygote lp64 initState crawl
  if is_zygote_done lp64 r.1 then r
  else ({ r.1 with timerArmed := true }, r.2 ++ [Event.armTimer])

/-! ## Event router (main wait loop) -/

def SIGTRAP : Nat := 5
def SIGSTOP : Nat := 19
def PTRACE_EVENT_FORK : Nat := 1
def PTRACE_EVENT_VFORK : Nat := 2
def PTRACE_EVENT_EXIT : Nat := 6

/-- Outcome of one `waitpid(-1, ...)` in the main loop: no children, a
non-ptrace-stop (`!WIFSTOPPED`), or a stop with its `WSTOPSIG`, `WEVENT`
and `PTRACE_GETEVENTMSG` payload. -/
inductive WaitRes where
  | echild
  | notStopped (pid : Nat)
  | stopped (pid : Nat) (sig : Nat) (event : Nat) (msg : Nat)
deriving DecidableEq

/-- What the proc filesystem answers during one main-loop iteration
(the `/proc/<pid>/status` content `is_process` would read). -/
structure StepEnv where
  statusRead : Option (List (String × Int))

/-- One iteration of the `proc_monitor` wait loop (lines 397-468). -/
def proc_monitor_step (s : MState) (w : WaitRes) (env : StepEnv) : MState × List Event :=
  match w with
  | WaitRes.echild => (s, [])
  | WaitRes.notStopped pid => detach_pid s pid
  | WaitRes.stopped pid sig event msg =>
    if sig == SIGTRAP && event != 0 then
      if (s.zygote_map.lookup pid).isSome then
        if event == PTRACE_EVENT_FORK || event == PTRACE_EVENT_VFORK then
          let s1 := { s with attaches := s.attaches.filter (fun q => q != msg), fork_pid := msg }
          let r := detach_pid s1 msg
          (r.1, r.2 ++ [Event.spawnWorker, Event.cont pid])
        else
          let s1 := { s with zygote_map := s.zygote_map.filter (fun z => z.1 != pid) }
          detach_pid s1 pid
      else
        detach_pid s pid
    else if sig == SIGSTOP then
      let already := s.attaches.contains pid
      let keep := already || is_process pid env.statusRead
      let s1 := if keep && !already then { s with attaches := pid :: s.attaches } else s
      if keep then (s1, [Event.setopts pid optsApp, Event.cont pid])
      else detach_pid s1 pid
    else
      (s, [Event.contSig pid sig])

/-- The `inotify_event` handler: bail out when `poll` reports nothing; invoke the
external `update_uid_map` on a close-write of packages.xml; rescan. -/
def inotify_event (lp64 : Bool) (s : MState) (pollOk isPkgXml : Bool)
    (crawl : List CrawlEntry) : MState × List Event :=
  if pollOk = false then (s, [])
  else
    let pre := if isPkgXml then [Event.updateUidMap] else []
    let r := check_zygote lp64 s crawl
    (r.1, pre ++ r.2)

/-- One asynchronous occurrence the monitor thread reacts to: a SIGALRM tick,
a SIGIO inotify notification, or a `waitpid` wakeup. -/
inductive MonEvent where
  | alarm (crawl : List CrawlEntry)
  | fsEvent (pollOk : Bool) (isPkgXml : Bool) (crawl : List CrawlEntry)
  | wait (w : WaitRes) (env : StepEnv)

/-- Dispatch one asynchronous occurrence to its handler. -/
def monitor_event (lp64 : Bool) (s : MState) (e : MonEvent) : MState × List Event :=
  match e with
  | MonEvent.alarm crawl => check_zygote lp64 s crawl
  | MonEvent.fsEvent pollOk isPkg crawl => inotify_event lp64 s pollOk isPkg crawl
  | MonEvent.wait w env => proc_monitor_step s w env

/-- Run the monitor: startup scan and timer arming, then a sequence of
asynchronous occurrences (only the state is tracked here). -/
def run_monitor (lp64 : Bool) (crawl0 : List CrawlEntry) (es : List MonEvent) : MState :=
  es.foldl (fun s e => (monitor_event lp64 s e).1) (monitor_init lp64 crawl0).1

/-! ## Termination handler -/

/-- Function `term_thread`: clear the registry and the bitmap, close the inotify
descriptor, block every signal, restore the default disposition of
SIGTERMTHRD, SIGIO and SIGALRM, and exit the thread. -/
def term_thread (s : MState) : MState × List Event :=
  ({ s with
      zygote_map := []
      attaches := []
      inotify_fd := -1
      maskAll := true
      actTermthrd := Handler.dfl
      actIoSig := Handler.dfl
      actAlarm := Handler.dfl },
   [Event.closeFd s.inotify_fd])

/-! ## Concrete fixtures used by witnesses and counterexamples -/

def stA : Stat := { st_dev := 1, st_ino := 41, st_uid := 0 }
def stB : Stat := { st_dev := 1, st_ino := 42, st_uid := 0 }
def stChild : Stat := { st_dev := 9, st_ino := 9, st_uid := 10050 }
def stSep : Stat := { st_dev := 2, st_ino := 77, st_uid := 0 }

/-- A boot-time crawl that finds both zygotes. -/
def crawl2 : List CrawlEntry :=
  [ { pid := 100, cmdlineRead := some "zygote64", ppid := 1, nsRead := some stA },
    { pid := 101, cmdlineRead := some "zygote", ppid := 1, nsRead := some stB } ]

/-- A run on a 64-bit system that discovers both zygotes at boot and then
sees zygote 100 hit a `PTRACE_EVENT_EXIT` stop. -/
def c1badRun : MState :=
  run_monitor true crawl2
    [MonEvent.wait (WaitRes.stopped 100 SIGTRAP PTRACE_EVENT_EXIT 0) { statusRead := none }]

/-- A child that dies before inspection: every proc read fails. -/
def deadEnv : ProcEnv :=
  { procStat := none
    attrCurrent := none
    cmdline0 := none
    cmdlineAt := fun _ => none
    ns := none
    hideTarget := fun _ _ => false }

/-- Monitor state right after zygote 1000 forked child 1100. -/
def sFork : MState := { initState with zygote_map := [(1000, stA)], fork_pid := 1100 }

def feDead : ForkEnv := { envs := fun _ => deadEnv }

/-- A healthy target app child whose namespace has separated. -/
def envTarget : ProcEnv :=
  { procStat := some stChild
    attrCurrent := some "u:r:untrusted_app:s0"
    cmdline0 := some "com.example.target"
    cmdlineAt := fun _ => some "com.example.target"
    ns := some stSep
    hideTarget := fun _ _ => true }

def feTarget : ForkEnv := { envs := fun _ => envTarget }

/-- A target app child whose mount namespace still equals that of zygote 1000. -/
def envShared : ProcEnv := { envTarget with ns := some stA }

def feShared : ForkEnv := { envs := fun _ => envShared }

/-- A non-target app child. -/
def envClean : ProcEnv := { envTarget with hideTarget := fun _ _ => false }

def feClean : ForkEnv := { envs := fun _ => envClean }

/-! ## Trace predicates -/

/-- The five trace shapes a single `check_pid` call can produce. -/
def TraceShape (evs : List Event) : Prop :=
  evs = [] ∨ evs = [Event.readFail] ∨ evs = [Event.sigcont] ∨
  (∃ u c, evs = [Event.sigstop, Event.query u c, Event.sigcont]) ∨
  (∃ u c, evs = [Event.sigstop, Event.query u c, Event.hide])

/-- Predicate `stopsBeforeQueries t seen`: every `is_hide_target` query in `t` comes
after some SIGSTOP (`seen` records whether a SIGSTOP already happened). -/
def stopsBeforeQueries : List Event → Bool → Bool
  | [], _ => true
  | e :: t, seen =>
    match e with
    | Event.sigstop => stopsBeforeQueries t true
    | Event.query _ _ => seen && stopsBeforeQueries t seen
    | _ => stopsBeforeQueries t seen

/-! ## Trace-shape lemmas for the child inspector -/

/-- An early `return true` from inside the first polling loop carries either
no event (iteration cap) or a single read failure. -/
theorem wait1_bail (env : ProcEnv) :
    ∀ fuel cmd k evs, waitForPreInit env cmd k fuel = Wait1Out.bail evs →
      evs = [] ∨ evs = [Event.readFail] := by
  intro fuel
  induction fuel with
  | zero =>
    intro cmd k evs h
    by_cases hc : cmd == preInitStr
    · simp [waitForPreInit, hc] at h
    · simp only [waitForPreInit, hc, Bool.false_eq_true, if_false] at h
      injection h with h
      exact Or.inl h.symm
  | succ f ih =>
    intro cmd k evs h
    by_cases hc : cmd == preInitStr
    · simp [waitForPreInit, hc] at h
    · simp only [waitForPreInit, hc, Bool.false_eq_true, if_false] at h
      cases hck : env.cmdlineAt k with
      | none =>
        rw [hck] at h
        injection h with h
        exact Or.inr h.symm
      | some c =>
        rw [hck] at h
        exact ih c (k + 1) evs h

/-- Result analysis of `checkAndHide`: retry request with no events, or one
of the five terminal outcomes. -/
theorem checkAndHide_cases (zm : List (Nat × Stat)) (env : ProcEnv) (uid : Nat)
    (cmdline : String) (k : Nat) (st : Stat) :
    checkAndHide zm env uid cmdline k st = (false, []) ∨
    checkAndHide zm env uid cmdline k st = (true, [Event.readFail]) ∨
    checkAndHide zm env uid cmdline k st = (true, [Event.sigcont]) ∨
    (∃ u c, checkAndHide zm env uid cmdline k st =
      (true, [Event.sigstop, Event.query u c, Event.sigcont])) ∨
    (∃ u c, checkAndHide zm env uid cmdline k st =
      (true, [Event.sigstop, Event.query u c, Event.hide])) := by
  unfold checkAndHide
  split
  · exact Or.inl rfl
  split
  · exact Or.inl rfl
  split
  · exact Or.inr (Or.inl rfl)
  · exact Or.inr (Or.inr (Or.inl rfl))
  split
  · exact Or.inr (Or.inl rfl)
  split
  · exact Or.inr (Or.inr (Or.inr (Or.inl ⟨uid, _, rfl⟩)))
  split
  · exact Or.inr (Or.inr (Or.inr (Or.inl ⟨uid, _, rfl⟩)))
  · exact Or.inr (Or.inr (Or.inr (Or.inr ⟨uid, _, rfl⟩)))

/-- Result analysis of one `check_pid` call: either "retry" with an empty
trace, or done with one of five terminal traces. -/
theorem check_pid_cases (zm : List (Nat × Stat)) (env : ProcEnv) :
    check_pid zm env = (false, []) ∨
    check_pid zm env = (true, []) ∨
    check_pid zm env = (true, [Event.readFail]) ∨
    check_pid zm env = (true, [Event.sigcont]) ∨
    (∃ u c, check_pid zm env =
      (true, [Event.sigstop, Event.query u c, Event.sigcont])) ∨
    (∃ u c, check_pid zm env =
      (true, [Event.sigstop, Event.query u c, Event.hide])) := by
  have lift : ∀ uid cmdline k st,
      (checkAndHide zm env uid cmdline k st = (false, []) ∨
       checkAndHide zm env uid cmdline k st = (true, [Event.readFail]) ∨
       checkAndHide zm env uid cmdline k st = (true, [Event.sigcont]) ∨
       (∃ u c, checkAndHide zm env uid cmdline k st =
         (true, [Event.sigstop, Event.query u c, Event.sigcont])) ∨
       (∃ u c, checkAndHide zm env uid cmdline k st =
         (true, [Event.sigstop, Event.query u c, Event.hide]))) →
      (checkAndHide zm env uid cmdline k st = (false, []) ∨
       checkAndHide zm env uid cmdline k st = (true, []) ∨
       checkAndHide zm env uid cmdline k st = (true, [Event.readFail]) ∨
       checkAndHide zm env uid cmdline k st = (true, [Event.sigcont]) ∨
       (∃ u c, checkAndHide zm env uid cmdline k st =
         (true, [Event.sigstop, Event.query u c, Event.sigcont])) ∨
       (∃ u c, checkAndHide zm env uid cmdline k st =
         (true, [Event.sigstop, Event.query u c, Event.hide]))) := by
    intro uid cmdline k st h
    rcases h with h | h | h | ⟨u, c, h⟩ | ⟨u, c, h⟩ <;> simp [h]
  unfold check_pid
  split
  · exact Or.inr (Or.inr (Or.inl rfl))
  rename_i st hps
  split
  · exact Or.inr (Or.inr (Or.inl rfl))
  rename_i context hat
  split
  · exact Or.inr (Or.inr (Or.inl rfl))
  rename_i cmdline hcl
  split
  · split
    · exact lift _ _ _ _ (checkAndHide_cases zm env st.st_uid cmdline 0 st)
    · split
      · rename_i evs hw
        rcases wait1_bail env CAP cmdline 0 evs hw with h | h
        · subst h; exact Or.inr (Or.inl rfl)
        · subst h; exact Or.inr (Or.inr (Or.inl rfl))
      · rename_i cmd k hw
        exact lift _ _ _ _ (checkAndHide_cases zm env st.st_uid cmd k st)
  · exact lift _ _ _ _ (checkAndHide_cases zm env st.st_uid cmdline 0 st)

/-- A `check_pid` call requesting a retry emitted no events. -/
theorem check_pid_false_nil (zm : List (Nat × Stat)) (env : ProcEnv)
    (h : (check_pid zm env).1 = false) : (check_pid zm env).2 = [] := by
  rcases check_pid_cases zm env with hc | hc | hc | hc | ⟨u, c, hc⟩ | ⟨u, c, hc⟩ <;>
    rw [hc] at h ⊢ <;> simp_all

/-- The whole `do_check_fork` retry loop produces one of the five terminal
trace shapes: all retried calls contribute nothing. -/
theorem checkLoop_shape (zm : List (Nat × Stat)) (fe : ForkEnv) :
    ∀ fuel k, TraceShape (checkLoop zm fe k fuel) := by
  intro fuel
  induction fuel with
  | zero =>
    intro k
    rcases check_pid_cases zm (fe.envs k) with hc | hc | hc | hc | ⟨u, c, hc⟩ | ⟨u, c, hc⟩ <;>
      simp only [checkLoop, hc] <;> simp [TraceShape]
  | succ f ih =>
    intro k
    rcases check_pid_cases zm (fe.envs k) with hc | hc | hc | hc | ⟨u, c, hc⟩ | ⟨u, c, hc⟩ <;>
      simp only [checkLoop, hc] <;> simp [TraceShape]
    exact ih (k + 1)

/-- The full inspector trace: empty when no fork was pending, otherwise the
detach of the child followed by one terminal shape. -/
theorem do_check_fork_trace (s : MState) (fe : ForkEnv) :
    (s.fork_pid = 0 ∧ (do_check_fork s fe).2 = []) ∨
    (∃ evs, (do_check_fork s fe).2 = Event.detach s.fork_pid :: evs ∧ TraceShape evs) := by
  by_cases h : s.fork_pid = 0
  · exact Or.inl ⟨h, by simp [do_check_fork, h]⟩
  · refine Or.inr ⟨checkLoop s.zygote_map fe 0 CAP, ?_, checkLoop_shape s.zygote_map fe CAP 0⟩
    simp [do_check_fork, h, detach_pid]

/-- C2 counterexample: for a child that dies before inspection (every proc
read fails), the inspector neither sends SIGCONT nor invokes the hide
daemon, refuting "never neither" at this concrete input. -/
theorem inspector_resolution_counterexample :
    ¬ ((countEv Event.sigcont (do_check_fork sFork feDead).2 = 1 ∧
        countEv Event.hide (do_check_fork sFork feDead).2 = 0) ∨
       (countEv Event.sigcont (do_check_fork sFork feDead).2 = 0 ∧
        countEv Event.hide (do_check_fork sFork feDead).2 = 1)) := by decide

/-- C2 (amended): on every inspection run the child is resumed via SIGCONT
or handed to hide_daemon at most once in total — never both; read-failure,
early-exclusion and iteration-cap paths may do neither. -/
theorem inspector_at_most_one_resolution (s : MState) (fe : ForkEnv) :
    countEv Event.sigcont (do_check_fork s fe).2 +
      countEv Event.hide (do_check_fork s fe).2 ≤ 1 := by
  rcases do_check_fork_trace s fe with ⟨_, h⟩ | ⟨evs, h, hs⟩
  · simp [h, countEv]
  · rcases hs with h1 | h1 | h1 | ⟨u, c, h1⟩ | ⟨u, c, h1⟩ <;> subst h1 <;>
      simp [h, countEv]

/-- C4: in every inspector run, `is_hide_target` is only consulted after the
child got SIGSTOP, and on runs that invoke hide_daemon the child received
exactly one SIGSTOP and no SIGCONT from the monitor. -/
theorem sigstop_before_classify (s : MState) (fe : ForkEnv) :
    stopsBeforeQueries (do_check_fork s fe).2 false = true ∧
    (Event.hide ∈ (do_check_fork s fe).2 →
      countEv Event.sigstop (do_check_fork s fe).2 = 1 ∧
      countEv Event.sigcont (do_check_fork s fe).2 = 0) := by
  rcases do_check_fork_trace s fe with ⟨_, h⟩ | ⟨evs, h, hs⟩
  · simp [h, stopsBeforeQueries]
  · rcases hs with h1 | h1 | h1 | ⟨u, c, h1⟩ | ⟨u, c, h1⟩ <;> subst h1 <;>
      simp [h, stopsBeforeQueries, countEv]

/-- C4 witness: the happy-path target run reaches hide_daemon with one
SIGSTOP and no SIGCONT. -/
theorem sigstop_before_classify_witness :
    Event.hide ∈ (do_check_fork sFork feTarget).2 ∧
    countEv Event.sigstop (do_check_fork sFork feTarget).2 = 1 ∧
    countEv Event.sigcont (do_check_fork sFork feTarget).2 = 0 :=
  ⟨by decide, (sigstop_before_classify sFork feTarget).2 (by decide)⟩

/-- C8: a proc metadata read failure makes `check_pid` report success with
nothing but the (swallowed) failure in its trace: no hide_daemon call. -/
theorem proc_read_failure_swallowed (zm : List (Nat × Stat)) (env : ProcEnv)
    (h : Event.readFail ∈ (check_pid zm env).2) :
    check_pid zm env = (true, [Event.readFail]) := by
  rcases check_pid_cases zm env with hc | hc | hc | hc | ⟨u, c, hc⟩ | ⟨u, c, hc⟩ <;>
    rw [hc] at h ⊢ <;> simp_all

/-- C8 witness: the dead-child environment hits a read failure and is
swallowed. -/
theorem proc_read_failure_swallowed_witness :
    check_pid [(1000, stA)] deadEnv = (true, [Event.readFail]) :=
  proc_read_failure_swallowed [(1000, stA)] deadEnv (by decide)

/-! ## Namespace-separation check (C3) -/

theorem countEv_append (e : Event) (a b : List Event) :
    countEv e (a ++ b) = countEv e a + countEv e b := by
  induction a with
  | nil => simp [countEv]
  | cons x t ih => simp [countEv, ih]; omega

/-- Function `checkAndHide` never reaches the hide branch while the namespace
fingerprint matches a registry entry. -/
theorem checkAndHide_ns_no_hide (zm : List (Nat × Stat)) (env : ProcEnv) (uid : Nat)
    (cmdline : String) (k : Nat) (st fp : Stat)
    (hns : env.ns = some fp)
    (hm : zm.any (fun z => z.2.st_ino == fp.st_ino && z.2.st_dev == fp.st_dev) = true) :
    countEv Event.hide (checkAndHide zm env uid cmdline k st).2 = 0 := by
  have hnsOf : nsOf env st = fp := by simp [nsOf, hns]
  unfold checkAndHide
  split
  · simp [countEv]
  split
  · simp [countEv]
  split
  · simp [countEv]
  · simp [countEv]
  split
  · simp [countEv]
  split
  · simp [countEv]
  simp [hnsOf, hm, countEv]

/-- Function `check_pid` never invokes hide_daemon while the namespace
fingerprint matches a registry entry. -/
theorem check_pid_ns_no_hide (zm : List (Nat × Stat)) (env : ProcEnv) (fp : Stat)
    (hns : env.ns = some fp)
    (hm : zm.any (fun z => z.2.st_ino == fp.st_ino && z.2.st_dev == fp.st_dev) = true) :
    countEv Event.hide (check_pid zm env).2 = 0 := by
  unfold check_pid
  split
  · simp [countEv]
  rename_i st hps
  split
  · simp [countEv]
  rename_i context hat
  split
  · simp [countEv]
  rename_i cmdline hcl
  split
  · split
    · exact checkAndHide_ns_no_hide zm env st.st_uid cmdline 0 st fp hns hm
    · split
      · rename_i evs hw
        rcases wait1_bail env CAP cmdline 0 evs hw with h | h <;> subst h <;> simp [countEv]
      · rename_i cmd k hw
        exact checkAndHide_ns_no_hide zm env st.st_uid cmd k st fp hns hm
  · exact checkAndHide_ns_no_hide zm env st.st_uid cmdline 0 st fp hns hm

theorem checkLoop_ns_no_hide (zm : List (Nat × Stat)) (fe : ForkEnv) (fp : Stat)
    (hns : ∀ k, (fe.envs k).ns = some fp)
    (hm : zm.any (fun z => z.2.st_ino == fp.st_ino && z.2.st_dev == fp.st_dev) = true) :
    ∀ fuel k, countEv Event.hide (checkLoop zm fe k fuel) = 0 := by
  intro fuel
  induction fuel with
  | zero =>
    intro k
    simp only [checkLoop]
    exact check_pid_ns_no_hide zm (fe.envs k) fp (hns k) hm
  | succ f ih =>
    intro k
    by_cases hb : (check_pid zm (fe.envs k)).1 = true
    · simp only [checkLoop, hb, if_true]
      exact check_pid_ns_no_hide zm (fe.envs k) fp (hns k) hm
    · simp only [checkLoop, hb]
      rw [if_neg (by simp), countEv_append,
        check_pid_ns_no_hide zm (fe.envs k) fp (hns k) hm, ih (k + 1)]

/-- C3: for an inspected child whose mount-namespace fingerprint equals a
registry entry on every observation, hide_daemon is never invoked. -/
theorem ns_match_no_hide (s : MState) (fe : ForkEnv) (fp : Stat)
    (hns : ∀ k, (fe.envs k).ns = some fp)
    (hm : s.zygote_map.any (fun z => z.2.st_ino == fp.st_ino && z.2.st_dev == fp.st_dev) = true) :
    countEv Event.hide (do_check_fork s fe).2 = 0 := by
  by_cases h : s.fork_pid = 0
  · simp [do_check_fork, h, countEv]
  · simp only [do_check_fork, detach_pid, beq_iff_eq, h, if_false]
    rw [countEv_append]
    have := checkLoop_ns_no_hide s.zygote_map fe fp hns hm CAP 0
    simp [countEv, this]

/-- C3 witness: scenario S3 — a target whose fingerprint equals zygote
that of zygote 1000; the hide daemon is not invoked. -/
theorem ns_match_no_hide_witness :
    countEv Event.hide (do_check_fork sFork feShared).2 = 0 :=
  ns_match_no_hide sFork feShared stA (fun _ => rfl) (by decide)

/-! ## Registry adoption (C5), main-loop dispatch (C6, C7) -/

/-- C5: `new_zygote` returns silently with no state change when the
fingerprint is unreadable; only refreshes the fingerprint (no ptrace) when
the pid is already registered; otherwise inserts, attaches, waits for the
first stop, sets fork/vfork/exit tracing and resumes. -/
theorem new_zygote_spec (s : MState) (pid : Nat) (nsRead : Option Stat) :
    (nsRead = none → new_zygote s pid nsRead = (s, [])) ∧
    (∀ st, nsRead = some st → (s.zygote_map.lookup pid).isSome = true →
      new_zygote s pid nsRead = ({ s with zygote_map := upsertNs s.zygote_map pid st }, [])) ∧
    (∀ st, nsRead = some st → (s.zygote_map.lookup pid).isSome = false →
      new_zygote s pid nsRead =
        ({ s with zygote_map := s.zygote_map ++ [(pid, st)] },
         [Event.attach pid, Event.waitStop pid, Event.setopts pid optsZygote,
          Event.cont pid])) := by
  refine ⟨?_, ?_, ?_⟩
  · intro h; subst h; rfl
  · intro st h hl; subst h; simp [new_zygote, hl]
  · intro st h hl; subst h; simp [new_zygote, hl]

/-- C5 witness: adoption of a fresh pid attaches, waits, sets options and
resumes. -/
theorem new_zygote_spec_witness :
    new_zygote initState 100 (some stA) =
      ({ initState with zygote_map := [(100, stA)] },
       [Event.attach 100, Event.waitStop 100, Event.setopts 100 optsZygote,
        Event.cont 100]) :=
  (new_zygote_spec initState 100 (some stA)).2.2 stA rfl (by decide)

/-- C6: a fork/vfork ptrace-event-stop from a registered spawner records the
child pid in the pending-fork slot, clears its bitmap bit, detaches the
child, launches the inspector worker, and resumes the spawner. -/
theorem fork_event_spec (s : MState) (pid msg ev : Nat) (env : StepEnv)
    (hz : (s.zygote_map.lookup pid).isSome = true)
    (hev : ev = PTRACE_EVENT_FORK ∨ ev = PTRACE_EVENT_VFORK) :
    proc_monitor_step s (WaitRes.stopped pid SIGTRAP ev msg) env =
      ({ s with attaches := s.attaches.filter (fun q => q != msg), fork_pid := msg },
       [Event.detach msg, Event.spawnWorker, Event.cont pid]) := by
  rcases hev with rfl | rfl <;>
    simp [proc_monitor_step, detach_pid, hz, SIGTRAP, SIGSTOP,
      PTRACE_EVENT_FORK, PTRACE_EVENT_VFORK, List.filter_filter]

/-- C6 witness: zygote 1000 forks child 1100. -/
theorem fork_event_spec_witness :
    proc_monitor_step sFork (WaitRes.stopped 1000 SIGTRAP PTRACE_EVENT_FORK 1100)
        { statusRead := none } =
      ({ sFork with
          attaches := sFork.attaches.filter (fun q => q != 1100),
          fork_pid := 1100 },
       [Event.detach 1100, Event.spawnWorker, Event.cont 1000]) :=
  fork_event_spec sFork 1000 1100 PTRACE_EVENT_FORK { statusRead := none }
    (by decide) (Or.inl rfl)

/-- C7: on a SIGSTOP signal-delivery-stop the main loop sets
clone/exec/exit tracing and resumes exactly when the bitmap bit is already
set or the pid is confirmed a thread-group leader, and detaches otherwise;
an unopenable status file means "not a process" (dead). -/
theorem sigstop_event_spec (s : MState) (pid ev msg : Nat) (env : StepEnv) :
    (proc_monitor_step s (WaitRes.stopped pid SIGSTOP ev msg) env).2 =
      (if s.attaches.contains pid || is_process pid env.statusRead
       then [Event.setopts pid optsApp, Event.cont pid]
       else [Event.detach pid]) ∧
    is_process pid none = false := by
  refine ⟨?_, rfl⟩
  simp [proc_monitor_step, detach_pid, apply_ite Prod.snd, SIGTRAP, SIGSTOP]

/-! ## Termination handler (C9) and bitmap indexing (C10) -/

/-- C9: the termination handler is idempotent on the monitor state, and the
state it produces is the cleaned one: empty registry, clear bitmap, closed
inotify descriptor, default dispositions for the three signals, all signals
blocked. -/
theorem term_thread_idempotent (s : MState) :
    (term_thread (term_thread s).1).1 = (term_thread s).1 ∧
    (term_thread s).1.zygote_map = [] ∧
    (term_thread s).1.attaches = [] ∧
    (term_thread s).1.inotify_fd = -1 ∧
    (term_thread s).1.actTermthrd = Handler.dfl ∧
    (term_thread s).1.actIoSig = Handler.dfl ∧
    (term_thread s).1.actAlarm = Handler.dfl ∧
    (term_thread s).1.maskAll = true :=
  ⟨rfl, rfl, rfl, rfl, rfl, rfl, rfl, rfl⟩

/-- C10: the bitmap indexing maps pid p to bit p-1 in size_t arithmetic, so
it is in bounds exactly for p in [1, PID_MAX], pid 0 underflows to the
largest size_t value, and `do_check_fork` on an unconsumed (zero)
pending-fork slot returns before any bitmap access, leaving the state
untouched apart from clearing the slot. -/
theorem pid_set_bounds :
    (∀ pos : Nat, pos < size_t_mod →
      (pid_set_index pos < PID_MAX ↔ 1 ≤ pos ∧ pos ≤ PID_MAX)) ∧
    pid_set_index 0 = size_t_mod - 1 ∧
    (∀ (s : MState) (fe : ForkEnv), s.fork_pid = 0 →
      do_check_fork s fe = ({ s with fork_pid := 0 }, [])) := by
  refine ⟨?_, by decide, ?_⟩
  · intro pos hpos
    unfold pid_set_index PID_MAX size_t_mod at *
    rcases Nat.eq_zero_or_pos pos with h0 | h1
    · subst h0; decide
    · have hsplit : pos + (2 ^ 64 - 1) = (pos - 1) + 2 ^ 64 := by omega
      rw [hsplit, Nat.add_mod_right, Nat.mod_eq_of_lt (by omega)]
      omega
  · intro s fe h
    simp [do_check_fork, h]

/-- C10 witness: pid 5 is in bounds, and a worker that finds the slot empty
does nothing. -/
theorem pid_set_bounds_witness :
    (pid_set_index 5 < PID_MAX ↔ 1 ≤ 5 ∧ 5 ≤ PID_MAX) ∧
    do_check_fork initState feDead = ({ initState with fork_pid := 0 }, []) :=
  ⟨pid_set_bounds.1 5 (by decide), pid_set_bounds.2.2 initState feDead rfl⟩

/-! ## Rescan-timer invariant (C1) -/

theorem new_zygote_timer (s : MState) (pid : Nat) (nsRead : Option Stat) :
    (new_zygote s pid nsRead).1.timerArmed = s.timerArmed := by
  cases nsRead with
  | none => rfl
  | some st => by_cases h : (s.zygote_map.lookup pid).isSome <;> simp [new_zygote, h]

theorem new_zygote_len (s : MState) (pid : Nat) (nsRead : Option Stat) :
    s.zygote_map.length ≤ (new_zygote s pid nsRead).1.zygote_map.length := by
  cases nsRead with
  | none => exact Nat.le_refl _
  | some st =>
    by_cases h : (s.zygote_map.lookup pid).isSome <;> simp [new_zygote, h, upsertNs]

theorem czStep_timer (acc : MState × List Event) (e : CrawlEntry) :
    (czStep acc e).1.timerArmed = acc.1.timerArmed := by
  unfold czStep
  split
  · rfl
  split
  · exact new_zygote_timer acc.1 e.pid e.nsRead
  · rfl

theorem czStep_len (acc : MState × List Event) (e : CrawlEntry) :
    acc.1.zygote_map.length ≤ (czStep acc e).1.zygote_map.length := by
  unfold czStep
  split
  · exact Nat.le_refl _
  split
  · exact new_zygote_len acc.1 e.pid e.nsRead
  · exact Nat.le_refl _

/-- The procfs crawl of `check_zygote` never touches the timer flag. -/
theorem czFold_timer (crawl : List CrawlEntry) :
    ∀ acc : MState × List Event,
      ((crawl.foldl czStep acc).1).timerArmed = acc.1.timerArmed := by
  induction crawl with
  | nil => intro acc; rfl
  | cons e t ih =>
    intro acc
    simp only [List.foldl_cons]
    rw [ih (czStep acc e), czStep_timer]

/-- The procfs crawl of `check_zygote` never shrinks the registry. -/
theorem czFold_len (crawl : List CrawlEntry) :
    ∀ acc : MState × List Event,
      acc.1.zygote_map.length ≤ ((crawl.foldl czStep acc).1).zygote_map.length := by
  induction crawl with
  | nil => intro acc; exact Nat.le_refl _
  | cons e t ih =>
    intro acc
    simp only [List.foldl_cons]
    exact Nat.le_trans (czStep_len acc e) (ih (czStep acc e))

/-- After any `check_zygote` run, an armed timer means the registry is still
below the expected spawner count. -/
theorem check_zygote_inv (lp64 : Bool) (s : MState) (crawl : List CrawlEntry) :
    (check_zygote lp64 s crawl).1.timerArmed = true →
    (check_zygote lp64 s crawl).1.zygote_map.length < expected_zygotes lp64 := by
  simp only [check_zygote]
  split
  · intro h; simp at h
  · rename_i hnd
    intro h
    simp only [is_zygote_done, decide_eq_true_eq] at hnd
    omega

/-- When the registry is full after `check_zygote`, the timer was disarmed
by it. -/
theorem check_zygote_done_disarm (lp64 : Bool) (s : MState) (crawl : List CrawlEntry) :
    is_zygote_done lp64 (check_zygote lp64 s crawl).1 = true →
    (check_zygote lp64 s crawl).1.timerArmed = false := by
  simp only [check_zygote]
  split
  · intro _; rfl
  · rename_i hnd
    intro h
    simp only [is_zygote_done, decide_eq_true_eq] at hnd h
    omega

theorem proc_monitor_step_timer (s : MState) (w : WaitRes) (env : StepEnv) :
    ((proc_monitor_step s w env).1).timerArmed = s.timerArmed := by
  cases w with
  | echild => rfl
  | notStopped pid => rfl
  | stopped pid sig event msg =>
    simp only [proc_monitor_step]
    split
    · split
      · split
        · simp [detach_pid]
        · simp [detach_pid]
      · simp [detach_pid]
    split
    · split <;> simp [detach_pid] <;> split <;> rfl
    · rfl

theorem proc_monitor_step_len (s : MState) (w : WaitRes) (env : StepEnv) :
    ((proc_monitor_step s w env).1).zygote_map.length ≤ s.zygote_map.length := by
  cases w with
  | echild => exact Nat.le_refl _
  | notStopped pid => exact Nat.le_refl _
  | stopped pid sig event msg =>
    simp only [proc_monitor_step]
    split
    · split
      · split
        · simp [detach_pid]
        · simp only [detach_pid]
          exact List.length_filter_le _ _
      · exact Nat.le_refl _
    split
    · split
      · split <;> simp
      · simp only [detach_pid]
        split <;> simp
    · exact Nat.le_refl _

/-- Every asynchronous occurrence preserves "armed implies below expected". -/
theorem monitor_event_inv (lp64 : Bool) (s : MState) (e : MonEvent)
    (h : s.timerArmed = true → s.zygote_map.length < expected_zygotes lp64) :
    (monitor_event lp64 s e).1.timerArmed = true →
    (monitor_event lp64 s e).1.zygote_map.length < expected_zygotes lp64 := by
  cases e with
  | alarm crawl => exact check_zygote_inv lp64 s crawl
  | fsEvent pollOk isPkg crawl =>
    by_cases hp : pollOk = false
    · simpa [monitor_event, inotify_event, hp] using h
    · simpa [monitor_event, inotify_event, hp] using check_zygote_inv lp64 s crawl
  | wait w env =>
    intro ha
    have ht := proc_monitor_step_timer s w env
    have hl := proc_monitor_step_len s w env
    rw [show (monitor_event lp64 s (MonEvent.wait w env)).1 = (proc_monitor_step s w env).1 from rfl] at ha ⊢
    rw [ht] at ha
    exact Nat.lt_of_le_of_lt hl (h ha)

/-- Right after startup, the timer is armed exactly when the registry is
below the expected count. -/
theorem monitor_init_iff (lp64 : Bool) (crawl : List CrawlEntry) :
    ((monitor_init lp64 crawl).1.timerArmed = true ↔
     (monitor_init lp64 crawl).1.zygote_map.length < expected_zygotes lp64) := by
  simp only [monitor_init]
  split
  · rename_i hdone
    have hd := check_zygote_done_disarm lp64 initState crawl hdone
    rw [hd]
    simp only [is_zygote_done, decide_eq_true_eq] at hdone
    constructor
    · intro hh; exact absurd hh (by simp)
    · intro hh; exact absurd hh (by omega)
  · rename_i hnd
    simp only [is_zygote_done, decide_eq_true_eq] at hnd
    constructor
    · intro _
      show (check_zygote lp64 initState crawl).1.zygote_map.length < expected_zygotes lp64
      omega
    · intro _
      rfl

theorem foldl_inv (lp64 : Bool) (es : List MonEvent) :
    ∀ s : MState,
      (s.timerArmed = true → s.zygote_map.length < expected_zygotes lp64) →
      ((es.foldl (fun s e => (monitor_event lp64 s e).1) s).timerArmed = true →
       (es.foldl (fun s e => (monitor_event lp64 s e).1) s).zygote_map.length <
         expected_zygotes lp64) := by
  induction es with
  | nil => intro s h; exact h
  | cons e t ih =>
    intro s h
    simp only [List.foldl_cons]
    exact ih _ (monitor_event_inv lp64 s e h)

/-- C1 (amended): the rescan timer is armed iff the registry is below the
expected spawner count right after startup, and thereafter an armed timer
still implies a below-expected registry — but spawner loss does not re-arm
the timer, so the converse fails after a loss. -/
theorem timer_armed_only_if_below_expected (lp64 : Bool) (crawl : List CrawlEntry)
    (es : List MonEvent) :
    ((monitor_init lp64 crawl).1.timerArmed = true ↔
     (monitor_init lp64 crawl).1.zygote_map.length < expected_zygotes lp64) ∧
    ((run_monitor lp64 crawl es).timerArmed = true →
     (run_monitor lp64 crawl es).zygote_map.length < expected_zygotes lp64) :=
  ⟨monitor_init_iff lp64 crawl,
   foldl_inv lp64 es (monitor_init lp64 crawl).1 (monitor_init_iff lp64 crawl).mp⟩

/-- C1 witness: with nothing discovered at boot the timer is armed and the
registry is indeed below the expected count. -/
theorem timer_armed_only_if_below_expected_witness :
    (run_monitor true [] []).timerArmed = true ∧
    (run_monitor true [] []).zygote_map.length < expected_zygotes true :=
  ⟨by decide, (timer_armed_only_if_below_expected true [] []).2 (by decide)⟩

/-- C1 counterexample: after both zygotes are found (timer disarmed) and
zygote 100 exits, the registry is below the expected count yet the timer is
not re-armed — the claimed iff fails at this reachable state. -/
theorem timer_rearm_counterexample :
    ¬ (c1badRun.timerArmed = true ↔
       c1badRun.zygote_map.length < expected_zygotes true) := by decide

end ProcMonitor
